import Mathlib

/-!
Shallow embedding of the NL-to-SQL translation core of `src/nlp.py`
(query-assistant repository), together with proofs checking the
specification's claims about it.

Python strings are modelled as Lean `String`s with Python's ASCII
whitespace set.  The external
`sqlparse.format(..., reindent=True, keyword_case="upper", indent_width=4)`
normalizer is a third-party library, not repository code; it is modelled as
an explicit function parameter `sqlformat`, threaded identically to the two
call sites that use it in the source (`QueryExample.__init__` and
`NLPToSQL.generate_sql`).
-/

namespace QueryAssistant

/-- ASCII whitespace, as recognised by Python's `str.strip()`, `str.split()`
and the regex class `\s` on ASCII input. -/
def isSpace (c : Char) : Bool :=
  c = ' ' || c = '\t' || c = '\n' || c = '\r' || c = '\x0b' || c = '\x0c'

/-- Drop the characters satisfying `p` from both ends of a character list. -/
def dropBoth (p : Char → Bool) (cs : List Char) : List Char :=
  ((cs.dropWhile p).reverse.dropWhile p).reverse

/-- Python `s.strip(chars)`: remove the characters satisfying `p` from both
ends of the string. -/
def pyStripChars (p : Char → Bool) (s : String) : String :=
  String.mk (dropBoth p s.data)

/-- Python `s.strip()` with no argument: strip whitespace from both ends. -/
def pyStrip (s : String) : String := pyStripChars isSpace s

/-- Python `s.strip("- ")`, as used on the first line of a corpus block in
`QueryExample.from_gist`. -/
def stripDashSpace (s : String) : String :=
  pyStripChars (fun c => c = '-' || c = ' ') s

/-- Python `s.lower()` on ASCII text. -/
def pyLower (s : String) : String := String.mk (s.data.map Char.toLower)

/-- Worker for `pySplitWhite`: accumulate the current word (reversed) and
emit it at each whitespace run. -/
def splitWhiteAux : List Char → List Char → List String
  | [], w => if w = [] then [] else [String.mk w.reverse]
  | c :: rest, w =>
    if isSpace c then
      if w = [] then splitWhiteAux rest [] else String.mk w.reverse :: splitWhiteAux rest []
    else splitWhiteAux rest (c :: w)

/-- Python `s.split()` with no argument: split on whitespace runs, dropping
empty pieces. -/
def pySplitWhite (s : String) : List String := splitWhiteAux s.data []

/-- Python `", ".join(l)` and friends. -/
def joinSep (sep : String) : List String → String
  | [] => ""
  | [x] => x
  | x :: xs => x ++ sep ++ joinSep sep xs

/-- Boolean list-prefix test (structural, used by the substring and replace
primitives). -/
def isPre : List Char → List Char → Bool
  | [], _ => true
  | _ :: _, [] => false
  | a :: as, b :: bs => a = b && isPre as bs

/-- Worker for `hasSub`: does `pat` occur as a contiguous run of `l`? -/
def hasSubAux (pat : List Char) : List Char → Bool
  | [] => pat.isEmpty
  | c :: rest => isPre pat (c :: rest) || hasSubAux pat rest

/-- Python `sub in s`: substring containment. -/
def hasSub (s sub : String) : Bool := hasSubAux sub.data s.data

/-- Worker for `pyReplace`: replace every occurrence of `pat` by `rep`,
scanning left to right over non-overlapping occurrences, exactly as
Python's `str.replace`.  After a match the remaining `pat.length - 1`
characters of the occurrence are consumed through the `skip` counter, which
keeps the recursion structural. -/
def replaceAux (pat rep : List Char) : List Char → Nat → List Char
  | [], _ => []
  | _ :: rest, skip + 1 => replaceAux pat rep rest skip
  | c :: rest, 0 =>
    if isPre pat (c :: rest) then
      rep ++ replaceAux pat rep rest (pat.length - 1)
    else
      c :: replaceAux pat rep rest 0

/-- Python `s.replace(pat, rep)` for a non-empty pattern (the source only
replaces the non-empty literals three-backticks-sql and three-backticks; the
empty-pattern case is left as the identity). -/
def pyReplace (s pat rep : String) : String :=
  match pat.data with
  | [] => s
  | _ :: _ => String.mk (replaceAux pat.data rep.data s.data 0)

/-- Index of the last newline in a character list, if any. -/
def lastNL : List Char → Option Nat
  | [] => none
  | c :: rest =>
    match lastNL rest with
    | some j => some (j + 1)
    | none => if c = '\n' then some 0 else none

/-- Worker for `reSplit`.  Mirrors Python's `re.split` with the pattern
newline-whitespace-star-newline: a separator match starts at a newline and,
by greedy matching with backtracking, extends to the last newline of the
maximal whitespace run that follows; matches are non-overlapping and taken
left to right. -/
def reSplitAux : List Char → List Char → Nat → List String
  | [], acc, _ => [String.mk acc.reverse]
  | _ :: rest, acc, skip + 1 => reSplitAux rest acc skip
  | c :: rest, acc, 0 =>
    if c = '\n' then
      match lastNL (rest.takeWhile isSpace) with
      | some j => String.mk acc.reverse :: reSplitAux rest [] (j + 1)
      | none => reSplitAux rest (c :: acc) 0
    else
      reSplitAux rest (c :: acc) 0

/-- Python `re.split` with the blank-line pattern used by
`QueryExample.from_gist`. -/
def reSplit (content : String) : List String := reSplitAux content.data [] 0

/-- Python `block.split("\n", 1)` when it yields two parts: the text before
the first newline and everything after it; `none` when there is no
newline (the Python call then yields a single part). -/
def splitOnce (s : String) : Option (String × String) :=
  go s.data []
where
  go : List Char → List Char → Option (String × String)
  | [], _ => none
  | c :: rest, acc =>
    if c = '\n' then some (String.mk acc.reverse, String.mk rest)
    else go rest (c :: acc)

/-! ### Data model (`nlp.py`) -/

/-- A parsed example pair, `QueryExample` in the source.  `natural_query`
holds the stripped question, `sql_query` the normalized SQL
(the spec calls the latter `canonical_sql`). -/
structure QueryExample where
  natural_query : String
  sql_query : String
deriving DecidableEq

/-- `QueryExample.__init__`: strip the question, strip the SQL and normalize
it with `sqlformat` (the model of `sqlparse.format` with `reindent=True`,
`keyword_case="upper"`, `indent_width=4`). -/
def QueryExample.make (sqlformat : String → String)
    (natural_query sql_query : String) : QueryExample :=
  { natural_query := pyStrip natural_query
    sql_query := sqlformat (pyStrip sql_query) }

/-- Body of the `for block in blocks` loop of `QueryExample.from_gist`:
either the parsed example of a block, or `none` when the block is skipped
by one of the three `continue`s. -/
def parseBlock (sqlformat : String → String) (block : String) :
    Option QueryExample :=
  if pyStrip block = "" then none
  else
    match splitOnce block with
    | none => none
    | some (p0, p1) =>
      let natural_query := pyStrip (stripDashSpace p0)
      let sql_query := pyStrip p1
      if natural_query = "" ∨ sql_query = "" then none
      else some (QueryExample.make sqlformat natural_query sql_query)

/-- `QueryExample.from_gist`: split the corpus on blank-line runs and keep
the blocks that parse, in order. -/
def from_gist (sqlformat : String → String) (content : String) :
    List QueryExample :=
  (reSplit content).filterMap (parseBlock sqlformat)

/-- One grouped row of the schema introspection query: a table name and its
`column type` strings (`table["table_name"]` and `table["columns"]`). -/
structure SchemaRow where
  table_name : String
  columns : List String
deriving DecidableEq

/-- The fixed introspection query issued by `NLPToSQL.get_table_schema`. -/
def schema_query : String :=
  "\n        SELECT \n            table_name,\n            array_agg(column_name || ' ' || data_type) as columns\n        FROM information_schema.columns\n        WHERE table_schema = 'public'\n        GROUP BY table_name;\n        "

/-- `NLPToSQL.get_table_schema`.  The database collaborator is modelled by
its `execute_query` function, returning `none` on failure; Python's
`if not results` treats both `None` and the empty row list as absent. -/
def get_table_schema (db : String → Option (List SchemaRow)) : String :=
  match db schema_query with
  | none => ""
  | some results =>
    if results.isEmpty then ""
    else
      results.foldl
        (fun acc t =>
          acc ++ "\nTable: " ++ t.table_name ++ "\n" ++
            "Columns: " ++ joinSep ", " t.columns ++ "\n")
        "Database Schema:\n"

/-- `NLPToSQL.calculate_similarity`: Jaccard similarity of the lower-cased
whitespace-delimited word sets, 0 when either set is empty.  Python's float
division is modelled exactly over `ℚ`. -/
def calculate_similarity (query : String) (ex : QueryExample) : ℚ :=
  let query_words := (pySplitWhite (pyLower query)).toFinset
  let example_words := (pySplitWhite (pyLower ex.natural_query)).toFinset
  if query_words = ∅ ∨ example_words = ∅ then 0
  else
    let inter := (query_words ∩ example_words).card
    let union := (query_words ∪ example_words).card
    if 0 < union then (inter : ℚ) / (union : ℚ) else 0

/-- The comparison used by `scored_examples.sort(key=lambda x: x[0],
reverse=True)`: a scored pair may precede another exactly when its score is
at least as large.  Python's `list.sort` is stable; `List.mergeSort` with
this comparison models it exactly. -/
def scoredLE (a b : ℚ × QueryExample) : Bool := decide (b.1 ≤ a.1)

/-- `NLPToSQL.get_relevant_examples`: score every stored example, sort by
score descending (stable), truncate to `max_examples` (default 3), and drop
zero scores. -/
def get_relevant_examples (query : String) (examples : List QueryExample)
    (max_examples : Nat := 3) : List QueryExample :=
  let scored := examples.map fun e => (calculate_similarity query e, e)
  let sorted := scored.mergeSort scoredLE
  (((sorted.take max_examples).filter fun x => decide (0 < x.1)).map fun x => x.2)

/-- The `examples_text` block assembled inside `NLPToSQL.generate_sql`. -/
def examples_text (relevant : List QueryExample) : String :=
  if relevant.isEmpty then ""
  else
    relevant.foldl
      (fun acc ex =>
        acc ++ "Natural Query: " ++ ex.natural_query ++ "\n" ++
          "SQL Query: " ++ ex.sql_query ++ "\n\n")
      "\nHere are some example queries:\n\n"

/-- The prompt f-string of `NLPToSQL.generate_sql`. -/
def build_prompt (schema extext natural_query : String) : String :=
  "You are a SQL expert. Convert natural language queries to valid PostgreSQL SQL queries.\nGiven this database schema:\n\n"
    ++ schema ++ "\n" ++ extext ++
    "\nConvert this natural language query to SQL:\n\"" ++ natural_query ++
    "\"\n\nRequirements:\n- Return only the PostgreSQL SQL query without any explanation or additional text\n- Use proper table joins and WHERE clauses\n- Ensure efficient query performance\n- Use appropriate date functions for time-based queries\n- Follow the style of the example queries when applicable\n\nSQL Query:"

/-- The full prompt `generate_sql` sends to the provider for a given
question, corpus and database. -/
def assembled_prompt (examples : List QueryExample) (natural_query : String)
    (db : String → Option (List SchemaRow)) : String :=
  build_prompt (get_table_schema db)
    (examples_text (get_relevant_examples natural_query examples 3))
    natural_query

/-- The post-processing `generate_sql` applies to a non-empty provider
response before normalizing: strip, remove every occurrence of the
three-backticks-sql and three-backticks markers, strip again. -/
def postprocess (response : String) : String :=
  pyStrip (pyReplace (pyReplace (pyStrip response) "```sql" "") "```" "")

/-- `NLPToSQL.generate_sql` (the pipeline's `translate`).  The bound
provider is modelled by its `generate` function, `none` signalling failure;
Python's `if not response` also maps the empty-string response to `None`. -/
def generate_sql (sqlformat : String → String) (examples : List QueryExample)
    (generate : String → Option String) (natural_query : String)
    (db : String → Option (List SchemaRow)) : Option String :=
  match generate (assembled_prompt examples natural_query db) with
  | none => none
  | some response =>
    if response = "" then none
    else some (sqlformat (postprocess response))

/-- `NLPToSQL.load_examples`.  Reading the file is modelled by its result:
`some content` on success, `none` when `open`/`read` raises (missing file,
decode error); the parse itself cannot raise.  Returns the new example
list together with the boolean result. -/
def load_examples (sqlformat : String → String)
    (examples : List QueryExample) (readResult : Option String) :
    List QueryExample × Bool :=
  match readResult with
  | none => (examples, false)
  | some content =>
    let new := from_gist sqlformat content
    (new, decide (0 < new.length))

/-- The provider bound to a pipeline instance (`self.llm_provider`). -/
inductive LLMProvider where
  | ollama (base_url model : String)
  | openrouter (api_key model base_url : String)
deriving DecidableEq

/-- The environment variables read by `config.py`, `none` when unset. -/
structure Env where
  llm_provider : Option String
  ollama_url : Option String
  ollama_model : Option String
  openrouter_api_key : Option String
  openrouter_model : Option String
deriving DecidableEq

/-- `Config.LLM_PROVIDER = os.getenv("LLM_PROVIDER", "ollama")`. -/
def Config.LLM_PROVIDER (env : Env) : String := env.llm_provider.getD "ollama"

/-- `Config.OLLAMA_URL`. -/
def Config.OLLAMA_URL (env : Env) : String :=
  env.ollama_url.getD "http://localhost:11434"

/-- `Config.OLLAMA_MODEL`. -/
def Config.OLLAMA_MODEL (env : Env) : String := env.ollama_model.getD "gemma:2b"

/-- `Config.OPENROUTER_MODEL`. -/
def Config.OPENROUTER_MODEL (env : Env) : String :=
  env.openrouter_model.getD "meta-llama/llama-3.1-8b-instruct:free"

/-- `Config.OPENROUTER_BASE_URL`. -/
def Config.OPENROUTER_BASE_URL : String := "https://openrouter.ai/api/v1"

/-- `OpenRouterProvider.__init__`: raises `ValueError` (modelled as
`Except.error`) exactly when the API key is falsy, i.e. unset or empty. -/
def openrouter_init (env : Env) : Except String LLMProvider :=
  match env.openrouter_api_key with
  | none => .error "OpenRouter API key not found in environment variables"
  | some k =>
    if k = "" then .error "OpenRouter API key not found in environment variables"
    else .ok (.openrouter k (Config.OPENROUTER_MODEL env) Config.OPENROUTER_BASE_URL)

/-- `NLPToSQL._initialize_provider`: lower-case the configured name; on
`"openrouter"` try the hosted backend and fall back to Ollama when its
constructor raises; otherwise bind Ollama. -/
def init_provider (env : Env) : LLMProvider :=
  let provider := pyLower (Config.LLM_PROVIDER env)
  if provider = "openrouter" then
    match openrouter_init env with
    | .ok p => p
    | .error _ => .ollama (Config.OLLAMA_URL env) (Config.OLLAMA_MODEL env)
  else .ollama (Config.OLLAMA_URL env) (Config.OLLAMA_MODEL env)

/-! ### Specification-side definitions

These follow the spec's words and are compared with the definitions
translated from the source. -/

/-- Spec 4.1: a corpus block is kept exactly when it has a second part
(text after the first newline) and both the bullet-stripped first line and
the trimmed remainder are non-empty. -/
def specGoodBlock (block : String) : Bool :=
  match splitOnce block with
  | none => false
  | some (p0, p1) =>
    !(decide (pyStrip (stripDashSpace p0) = "")) && !(decide (pyStrip p1 = ""))

/-- Spec 4.1: the example a well-formed block yields — first line is the
question (bullet markers and whitespace stripped), remainder is the SQL. -/
def specBlockExample (sqlformat : String → String) (block : String) :
    QueryExample :=
  match splitOnce block with
  | none => QueryExample.make sqlformat "" ""
  | some (p0, p1) =>
    QueryExample.make sqlformat (pyStrip (stripDashSpace p0)) (pyStrip p1)

/-- Spec 4.3's ordering on indexed scored examples, with the tie-break
explicit: strictly greater score first, ties by original corpus position. -/
def specLE (a b : Nat × ℚ × QueryExample) : Bool :=
  decide (b.2.1 < a.2.1 ∨ (a.2.1 = b.2.1 ∧ a.1 ≤ b.1))

/-- Spec 4.3's ranking, written with the stable tie-break explicit: sort
the indexed scored corpus by descending score breaking ties by position,
truncate to `limit`, drop zero scores. -/
def rankSpec (query : String) (examples : List QueryExample) (limit : Nat) :
    List QueryExample :=
  let scored := examples.map fun e => (calculate_similarity query e, e)
  let sorted := (scored.enum.mergeSort specLE).map fun p => p.2
  ((sorted.take limit).filter fun x => decide (0 < x.1)).map fun x => x.2

/-- The backtick character (used only through string literals in the
source). -/
def backtick : Char := Char.ofNat 96

/-- Concatenation of a list of strings. -/
def concatAll : List String → String
  | [] => ""
  | x :: xs => x ++ concatAll xs

/-! ### Helper lemmas -/

/-- A `filterMap` whose function is an if-then-some-else-none is a filter
followed by a map. -/
theorem filterMap_eq_filter_map {α β : Type} {f : α → Option β}
    {p : α → Bool} {g : α → β}
    (h : ∀ a, f a = if p a then some (g a) else none) :
    ∀ l : List α, l.filterMap f = (l.filter p).map g := by
  intro l
  induction l with
  | nil => rfl
  | cons a l ih =>
    rw [List.filterMap_cons, List.filter_cons, h a]
    by_cases hp : p a
    · simp [hp, ih]
    · simp [hp, ih]

theorem data_append (a b : String) : (a ++ b).data = a.data ++ b.data := rfl

theorem mk_data (s : String) : String.mk s.data = s := rfl

theorem dropBoth_eq_nil_iff {p : Char → Bool} {cs : List Char} :
    dropBoth p cs = [] ↔ ∀ c ∈ cs, p c := by
  unfold dropBoth
  rw [List.reverse_eq_nil_iff, List.dropWhile_eq_nil_iff]
  constructor
  · intro h c hc
    have hc' : c ∈ cs.takeWhile p ++ cs.dropWhile p := by
      rw [List.takeWhile_append_dropWhile]
      exact hc
    rcases List.mem_append.1 hc' with h1 | h1
    · exact List.mem_takeWhile_imp h1
    · exact h c (List.mem_reverse.2 h1)
  · intro h c hc
    exact h c ((List.dropWhile_sublist p).subset (List.mem_reverse.1 hc))

theorem mem_of_mem_dropBoth {p : Char → Bool} {c : Char} {cs : List Char}
    (h : c ∈ dropBoth p cs) : c ∈ cs := by
  unfold dropBoth at h
  rw [List.mem_reverse] at h
  have h2 := (List.dropWhile_sublist p).subset h
  rw [List.mem_reverse] at h2
  exact (List.dropWhile_sublist p).subset h2

theorem pyStrip_eq_empty_iff {s : String} :
    pyStrip s = "" ↔ ∀ c ∈ s.data, isSpace c := by
  unfold pyStrip pyStripChars
  rw [String.ext_iff]
  exact dropBoth_eq_nil_iff

theorem mem_of_mem_pyStripChars {p : Char → Bool} {c : Char} {s : String}
    (h : c ∈ (pyStripChars p s).data) : c ∈ s.data :=
  mem_of_mem_dropBoth h

theorem splitOnce_go_mem :
    ∀ (l acc : List Char) (p0 p1 : String),
      splitOnce.go l acc = some (p0, p1) →
      (∀ c ∈ p0.data, c ∈ acc.reverse ++ l) ∧ (∀ c ∈ p1.data, c ∈ l) := by
  intro l
  induction l with
  | nil => intro acc p0 p1 h; exact absurd h (by simp [splitOnce.go])
  | cons a l ih =>
    intro acc p0 p1 h
    rw [splitOnce.go] at h
    by_cases ha : a = '\n'
    · rw [if_pos ha] at h
      obtain ⟨h0, h1⟩ := Prod.mk.injEq .. ▸ Option.some.injEq .. ▸ h
      constructor
      · intro c hc
        rw [← h0] at hc
        simp only [List.mem_append]
        left
        exact hc
      · intro c hc
        rw [← h1] at hc
        exact List.mem_cons_of_mem _ hc
    · rw [if_neg ha] at h
      obtain ⟨h0, h1⟩ := ih (a :: acc) p0 p1 h
      refine ⟨fun c hc => ?_, fun c hc => List.mem_cons_of_mem _ (h1 c hc)⟩
      have := h0 c hc
      simp only [List.reverse_cons, List.append_assoc, List.mem_append,
        List.mem_cons, List.mem_singleton] at this ⊢
      tauto

theorem splitOnce_mem {s p0 p1 : String} (h : splitOnce s = some (p0, p1)) :
    (∀ c ∈ p0.data, c ∈ s.data) ∧ (∀ c ∈ p1.data, c ∈ s.data) := by
  have := splitOnce_go_mem s.data [] p0 p1 h
  simpa using this

/-- The whitespace-only pre-check of the `from_gist` loop is subsumed: a
block that strips to empty either has no newline or has whitespace-only
parts, so the remaining checks also reject it. -/
theorem parseBlock_eq_spec (sqlformat : String → String) (block : String) :
    parseBlock sqlformat block =
      if specGoodBlock block then some (specBlockExample sqlformat block)
      else none := by
  unfold parseBlock specGoodBlock specBlockExample
  by_cases hb : pyStrip block = ""
  · rw [if_pos hb]
    rcases hsp : splitOnce block with _ | ⟨p0, p1⟩
    · simp
    · have hall := pyStrip_eq_empty_iff.1 hb
      have hmem := splitOnce_mem hsp
      have h0 : pyStrip (stripDashSpace p0) = "" := by
        refine pyStrip_eq_empty_iff.2 fun c hc => ?_
        exact hall c (hmem.1 c (mem_of_mem_pyStripChars hc))
      simp [h0]
  · rw [if_neg hb]
    rcases hsp : splitOnce block with _ | ⟨p0, p1⟩
    · simp
    · by_cases h01 : pyStrip (stripDashSpace p0) = "" ∨ pyStrip p1 = ""
      · rcases h01 with h01 | h01 <;> simp [h01]
      · push_neg at h01
        simp [h01.1, h01.2]

theorem str_append_assoc (a b c : String) : a ++ b ++ c = a ++ (b ++ c) :=
  String.ext (by simp [data_append])

theorem str_append_empty (a : String) : a ++ "" = a :=
  String.ext (by simp [data_append])

/-- The accumulation of the two `+=` lines in `get_table_schema`, written as
the concatenation of one text chunk per row. -/
theorem schema_foldl (rows : List SchemaRow) :
    ∀ a : String,
      rows.foldl
        (fun acc t =>
          acc ++ "\nTable: " ++ t.table_name ++ "\n" ++ "Columns: " ++
            joinSep ", " t.columns ++ "\n") a =
      a ++ concatAll (rows.map fun t =>
        "\nTable: " ++ t.table_name ++ "\n" ++ "Columns: " ++
          joinSep ", " t.columns ++ "\n") := by
  induction rows with
  | nil => intro a; simp [concatAll, str_append_empty]
  | cons t rows ih =>
    intro a
    rw [List.foldl_cons, ih, List.map_cons, concatAll]
    apply String.ext
    simp [data_append, List.append_assoc]

theorem isPre_append_self : ∀ l r : List Char, isPre l (l ++ r) = true := by
  intro l r
  induction l with
  | nil => rfl
  | cons a l ih => simp [isPre, ih]

theorem replaceAux_skip (pat rep : List Char) :
    ∀ (l t : List Char), replaceAux pat rep (l ++ t) l.length = replaceAux pat rep t 0 := by
  intro l
  induction l with
  | nil => intro t; rfl
  | cons c l ih => intro t; exact ih t

theorem replaceAux_no_head (pc : Char) (ps rep : List Char) :
    ∀ (l t : List Char), (∀ c ∈ l, ¬ c = pc) →
      replaceAux (pc :: ps) rep (l ++ t) 0 = l ++ replaceAux (pc :: ps) rep t 0 := by
  intro l
  induction l with
  | nil => intro t _; rfl
  | cons c l ih =>
    intro t h
    have hc : (pc = c) = False :=
      eq_false fun he => h c (List.mem_cons_self c l) he.symm
    rw [List.cons_append, replaceAux]
    have hpre : isPre (pc :: ps) (c :: (l ++ t)) = false := by simp [isPre, hc]
    rw [hpre]
    simp only [Bool.false_eq_true, if_false]
    rw [ih t fun d hd => h d (List.mem_cons_of_mem c hd), List.cons_append]

theorem replaceAux_head_match (pc : Char) (ps rep t : List Char) :
    replaceAux (pc :: ps) rep ((pc :: ps) ++ t) 0 =
      rep ++ replaceAux (pc :: ps) rep t 0 := by
  rw [List.cons_append, replaceAux]
  have h1 : isPre (pc :: ps) (pc :: (ps ++ t)) = true := by
    rw [← List.cons_append]
    exact isPre_append_self _ _
  rw [if_pos h1]
  have h2 : (pc :: ps).length - 1 = ps.length := by simp
  rw [h2, replaceAux_skip]

theorem pyReplace_eq (s pat rep : String) (pc : Char) (ps : List Char)
    (hp : pat.data = pc :: ps) :
    pyReplace s pat rep = String.mk (replaceAux pat.data rep.data s.data 0) := by
  unfold pyReplace
  split
  · next h => rw [hp] at h; exact absurd h (by simp)
  · rfl

theorem dropBoth_cons_concat (p : Char → Bool) (a b : Char) (l : List Char)
    (ha : p a = false) (hb : p b = false) :
    dropBoth p (a :: (l ++ [b])) = a :: (l ++ [b]) := by
  unfold dropBoth
  have h1 : List.dropWhile p (a :: (l ++ [b])) = a :: (l ++ [b]) := by
    simp [List.dropWhile_cons, ha]
  rw [h1]
  have h2 : (a :: (l ++ [b])).reverse = b :: (l.reverse ++ [a]) := by simp
  rw [h2]
  have h3 : List.dropWhile p (b :: (l.reverse ++ [a])) = b :: (l.reverse ++ [a]) := by
    simp [List.dropWhile_cons, hb]
  rw [h3]
  simp

/-- The fenced-response reduction behind C6: a response of the shape
three-backticks-sql, body, three-backticks, with no backtick inside the
body, post-processes to the trimmed body. -/
theorem postprocess_fenced (body : String)
    (hb : ∀ c ∈ body.data, ¬ c = backtick) :
    postprocess ("```sql" ++ body ++ "```") = pyStrip body := by
  have hpat1 : ("```sql" : String).data = backtick :: "``sql".data := by decide
  have hpat2 : ("```" : String).data = backtick :: "``".data := by decide
  have h0 : pyStrip ("```sql" ++ body ++ "```") = "```sql" ++ body ++ "```" := by
    apply String.ext
    show dropBoth isSpace _ = _
    have hF : ("```sql" ++ body ++ "```").data =
        backtick :: (("``sql".data ++ body.data ++ "``".data) ++ [backtick]) := by
      rw [data_append, data_append, hpat1,
        show ("```" : String).data = "``".data ++ [backtick] from by decide]
      simp [List.append_assoc]
    rw [hF]
    exact dropBoth_cons_concat isSpace backtick backtick _ (by decide) (by decide)
  have h1 : pyReplace ("```sql" ++ body ++ "```") "```sql" "" = body ++ "```" := by
    have hF2 : ("```sql" ++ body ++ "```").data =
        ("```sql" : String).data ++ (body.data ++ ("```" : String).data) := by
      rw [data_append, data_append, List.append_assoc]
    rw [pyReplace_eq _ _ _ backtick "``sql".data hpat1]
    apply String.ext
    show replaceAux _ _ _ 0 = _
    rw [show (("" : String).data) = ([] : List Char) from rfl, hF2, hpat1]
    rw [replaceAux_head_match backtick ("``sql".data) []
      (body.data ++ ("```" : String).data)]
    rw [List.nil_append]
    rw [replaceAux_no_head backtick ("``sql".data) [] body.data
      (("```" : String).data) hb]
    rw [data_append]
    congr 1
  have h2 : pyReplace (body ++ "```") "```" "" = body := by
    rw [pyReplace_eq _ _ _ backtick "``".data hpat2]
    apply String.ext
    show replaceAux _ _ _ 0 = _
    rw [show (("" : String).data) = ([] : List Char) from rfl, data_append, hpat2]
    rw [replaceAux_no_head backtick ("``".data) [] body.data
      (backtick :: "``".data) hb]
    rw [show replaceAux (backtick :: "``".data) [] (backtick :: "``".data) 0 = []
      from by decide, List.append_nil]
  rw [postprocess, h0, h1, h2]

/-- The spec's explicit tie-break order coincides with the positional
order `List.enumLE` induced by the implementation's score comparison. -/
theorem specLE_eq_enumLE : specLE = List.enumLE scoredLE := by
  funext a b
  simp only [specLE, List.enumLE, scoredLE]
  by_cases h1 : b.2.1 ≤ a.2.1
  · by_cases h2 : a.2.1 ≤ b.2.1
    · have he : a.2.1 = b.2.1 := le_antisymm h2 h1
      simp [h1, h2, he]
    · have hlt : b.2.1 < a.2.1 := lt_of_le_not_le h1 h2
      simp [h1, h2, hlt]
  · have hlt : a.2.1 < b.2.1 := not_le.1 h1
    have haux : ¬ b.2.1 < a.2.1 := not_lt.2 (le_of_lt hlt)
    have hne : a.2.1 ≠ b.2.1 := ne_of_lt hlt
    simp [h1, haux, hne]

/-- The pipeline of `get_relevant_examples`, with its `let`s unfolded. -/
theorem get_relevant_examples_eq (q : String) (ex : List QueryExample) (n : Nat) :
    get_relevant_examples q ex n =
      ((((ex.map fun e => (calculate_similarity q e, e)).mergeSort
          scoredLE).take n).filter fun x => decide (0 < x.1)).map
        (fun x => x.2) := rfl

/-! ### Claim theorems -/

/-- C2: the ranking returns at most `n` examples (3 at every call site, the
default), in descending order of Jaccard word-set similarity, containing
no zero-scored example, and equals the spec's ranking with the tie-break
by original corpus position made explicit — the stable-sort property. -/
theorem c2_get_relevant_examples (q : String) (ex : List QueryExample) (n : Nat) :
    (get_relevant_examples q ex n).length ≤ n ∧
    List.Pairwise
      (fun a b => calculate_similarity q b ≤ calculate_similarity q a)
      (get_relevant_examples q ex n) ∧
    (∀ e ∈ get_relevant_examples q ex n, 0 < calculate_similarity q e) ∧
    get_relevant_examples q ex n = rankSpec q ex n := by
  have hinv : ∀ p ∈ (ex.map fun e => (calculate_similarity q e, e)).mergeSort
      scoredLE, p.1 = calculate_similarity q p.2 := by
    intro p hp
    rw [List.mem_mergeSort] at hp
    obtain ⟨e, _, hpe⟩ := List.mem_map.1 hp
    subst hpe
    rfl
  have htrans : ∀ a b c : ℚ × QueryExample,
      scoredLE a b → scoredLE b c → scoredLE a c := by
    intro a b c hab hbc
    simp only [scoredLE, decide_eq_true_eq] at hab hbc ⊢
    exact le_trans hbc hab
  have htotal : ∀ a b : ℚ × QueryExample, scoredLE a b || scoredLE b a := by
    intro a b
    simp only [scoredLE, Bool.or_eq_true, decide_eq_true_eq]
    exact le_total b.1 a.1
  have hsorted := List.sorted_mergeSort htrans htotal
    (ex.map fun e => (calculate_similarity q e, e))
  have hsub : List.Sublist
      ((((ex.map fun e => (calculate_similarity q e, e)).mergeSort
        scoredLE).take n).filter fun x => decide (0 < x.1))
      ((ex.map fun e => (calculate_similarity q e, e)).mergeSort scoredLE) :=
    (List.filter_sublist _).trans (List.take_sublist n _)
  refine ⟨?_, ?_, ?_, ?_⟩
  · rw [get_relevant_examples_eq, List.length_map]
    exact le_trans (List.length_filter_le _ _)
      (by rw [List.length_take]; exact min_le_left _ _)
  · rw [get_relevant_examples_eq, List.pairwise_map]
    have hPF := List.Pairwise.sublist hsub hsorted
    refine hPF.imp_of_mem ?_
    intro a b ha hb hab
    have ha' := hinv a (hsub.subset ha)
    have hb' := hinv b (hsub.subset hb)
    simp only [scoredLE, decide_eq_true_eq] at hab
    rw [← ha', ← hb']
    exact hab
  · intro e he
    rw [get_relevant_examples_eq] at he
    obtain ⟨p, hpF, hpe⟩ := List.mem_map.1 he
    obtain ⟨hpt, hppos⟩ := List.mem_filter.1 hpF
    have hp1 : 0 < p.1 := by simpa using hppos
    have := hinv p ((List.take_sublist n _).subset hpt)
    rw [← hpe, ← this]
    exact hp1
  · rw [get_relevant_examples_eq,
      show rankSpec q ex n =
        (((((ex.map fun e => (calculate_similarity q e, e)).enum.mergeSort
            specLE).map fun p => p.2).take n).filter fun x =>
          decide (0 < x.1)).map (fun x => x.2) from rfl,
      specLE_eq_enumLE, List.mergeSort_enum]

/-- Witness for C2 at a concrete corpus: the exact-match example is
returned, so its (positive) score satisfies the theorem's no-zero-score
clause. -/
theorem c2_get_relevant_examples_witness :
    0 < calculate_similarity "a" (QueryExample.make (fun s => s) "a" "s") := by
  have hq : (QueryExample.make (fun s => s) "a" "s").natural_query = "a" := rfl
  have hset : (pySplitWhite (pyLower "a")).toFinset = ({"a"} : Finset String) := by
    decide
  have hpos : (0:ℚ) <
      calculate_similarity "a" (QueryExample.make (fun s => s) "a" "s") := by
    simp only [calculate_similarity, hq, hset]
    norm_num
  have hmem : QueryExample.make (fun s => s) "a" "s" ∈
      get_relevant_examples "a" [QueryExample.make (fun s => s) "a" "s"] 3 := by
    rw [get_relevant_examples_eq]
    rw [show List.map (fun e => (calculate_similarity "a" e, e))
        [QueryExample.make (fun s => s) "a" "s"] =
      [(calculate_similarity "a" (QueryExample.make (fun s => s) "a" "s"),
        QueryExample.make (fun s => s) "a" "s")] from rfl]
    rw [List.mergeSort_singleton]
    simp [hpos]
  exact (c2_get_relevant_examples "a" [QueryExample.make (fun s => s) "a" "s"] 3).2.2.1
    (QueryExample.make (fun s => s) "a" "s") hmem

/-- C5: `from_gist` splits the corpus at blank-line runs, keeps exactly the
blocks whose bullet-stripped first line and trimmed remainder are both
non-empty, turns each into its example, silently drops the rest, and
preserves block order: it is the order-preserving filter-then-map of the
block list. -/
theorem c5_from_gist_blocks (sqlformat : String → String) (content : String) :
    from_gist sqlformat content =
      ((reSplit content).filter specGoodBlock).map (specBlockExample sqlformat) :=
  filterMap_eq_filter_map (parseBlock_eq_spec sqlformat) (reSplit content)

/-- C3: `load_examples` returns `true` exactly when the file was read and at
least one example was parsed from it; on a read error it returns `false`
and leaves the previously loaded corpus unchanged. -/
theorem c3_load_examples (sqlformat : String → String)
    (prev : List QueryExample) (readResult : Option String) :
    ((load_examples sqlformat prev readResult).2 = true ↔
      ∃ content, readResult = some content ∧ from_gist sqlformat content ≠ []) ∧
    (readResult = none → load_examples sqlformat prev readResult = (prev, false)) := by
  constructor
  · cases readResult with
    | none => simp [load_examples]
    | some content => simp [load_examples, List.length_pos]
  · rintro rfl
    rfl

/-- Witness for C3 at a concrete failing read: the previous corpus is kept
and the result is `false`. -/
theorem c3_load_examples_witness :
    load_examples (fun s => s) [QueryExample.make (fun s => s) "q" "SELECT 1"] none =
      ([QueryExample.make (fun s => s) "q" "SELECT 1"], false) :=
  (c3_load_examples (fun s => s) [QueryExample.make (fun s => s) "q" "SELECT 1"] none).2 rfl

/-- C9: when the read succeeds but no block parses, `load_examples` returns
`false` and still replaces the previous corpus with the empty list. -/
theorem c9_load_examples_wipes (sqlformat : String → String)
    (prev : List QueryExample) (content : String)
    (h : from_gist sqlformat content = []) :
    load_examples sqlformat prev (some content) = ([], false) := by
  simp [load_examples, h]

/-- Witness for C9: a successfully read file with no parseable block (a
single block with no newline) wipes a previously non-empty corpus and
reports `false`. -/
theorem c9_load_examples_wipes_witness :
    load_examples (fun s => s) [QueryExample.make (fun s => s) "q" "SELECT 1"]
      (some "x") = ([], false) :=
  c9_load_examples_wipes (fun s => s) [QueryExample.make (fun s => s) "q" "SELECT 1"]
    "x" (by decide)

/-- C4: provider selection lower-cases the configured name; anything other
than `"openrouter"` (including the unset default) binds Ollama, a falsy
OpenRouter key falls back to Ollama without raising, and a truthy key binds
OpenRouter. -/
theorem c4_init_provider (env : Env) :
    (pyLower (Config.LLM_PROVIDER env) ≠ "openrouter" →
      init_provider env = .ollama (Config.OLLAMA_URL env) (Config.OLLAMA_MODEL env)) ∧
    (env.llm_provider = none →
      init_provider env = .ollama (Config.OLLAMA_URL env) (Config.OLLAMA_MODEL env)) ∧
    (pyLower (Config.LLM_PROVIDER env) = "openrouter" →
      env.openrouter_api_key = none ∨ env.openrouter_api_key = some "" →
      init_provider env = .ollama (Config.OLLAMA_URL env) (Config.OLLAMA_MODEL env)) ∧
    (∀ k, pyLower (Config.LLM_PROVIDER env) = "openrouter" →
      env.openrouter_api_key = some k → k ≠ "" →
      init_provider env =
        .openrouter k (Config.OPENROUTER_MODEL env) Config.OPENROUTER_BASE_URL) := by
  refine ⟨fun h => ?_, fun h => ?_, fun h hk => ?_, fun k h hk hne => ?_⟩
  · simp [init_provider, h]
  · have h2 : pyLower (Config.LLM_PROVIDER env) = "ollama" := by
      rw [Config.LLM_PROVIDER, h]
      rfl
    simp [init_provider, h2]
  · rcases hk with hk | hk <;> simp [init_provider, h, openrouter_init, hk]
  · simp [init_provider, h, openrouter_init, hk, hne]

/-- Witness for C4: mixed-case `"OpenRouter"` with no API key falls back to
the Ollama defaults without raising. -/
theorem c4_init_provider_witness :
    init_provider (Env.mk (some "OpenRouter") none none none none) =
      LLMProvider.ollama "http://localhost:11434" "gemma:2b" :=
  (c4_init_provider (Env.mk (some "OpenRouter") none none none none)).2.2.1
    (by decide) (Or.inl rfl)

/-- C8: the schema formatter yields `""` on an empty row list, and one
`Table:` heading plus one comma-joined `Columns:` line per row; on the
`users` row it contains the two expected lines. -/
theorem c8_get_table_schema :
    get_table_schema (fun _ => some []) = "" ∧
    hasSub (get_table_schema (fun _ => some [SchemaRow.mk "users" ["id int", "name text"]]))
      "Table: users" = true ∧
    hasSub (get_table_schema (fun _ => some [SchemaRow.mk "users" ["id int", "name text"]]))
      "Columns: id int, name text" = true ∧
    ∀ (db : String → Option (List SchemaRow)) (rows : List SchemaRow),
      db schema_query = some rows → rows ≠ [] →
      get_table_schema db =
        "Database Schema:\n" ++
          concatAll (rows.map fun t =>
            "\nTable: " ++ t.table_name ++ "\n" ++ "Columns: " ++
              joinSep ", " t.columns ++ "\n") := by
  refine ⟨rfl, by decide, by decide, fun db rows h hne => ?_⟩
  rw [get_table_schema, h]
  simp only [List.isEmpty_iff, hne, if_false]
  exact schema_foldl rows "Database Schema:\n"

/-- Witness for C8's per-row clause at the `users` row. -/
theorem c8_get_table_schema_witness :
    get_table_schema (fun _ => some [SchemaRow.mk "users" ["id int", "name text"]]) =
      "Database Schema:\n" ++
        concatAll ([SchemaRow.mk "users" ["id int", "name text"]].map fun t =>
          "\nTable: " ++ t.table_name ++ "\n" ++ "Columns: " ++
            joinSep ", " t.columns ++ "\n") :=
  c8_get_table_schema.2.2.2 _ _ rfl (by decide)

/-- C10: a failed (`none`) or empty schema introspection yields the empty
schema description, the pipeline still assembles the prompt with an empty
schema and invokes the provider, and the translation is `none` only when
the provider itself fails or returns the empty string. -/
theorem c10_schema_failure (sqlformat : String → String)
    (examples : List QueryExample) (generate : String → Option String)
    (natural_query : String) (db : String → Option (List SchemaRow))
    (h : db schema_query = none ∨ db schema_query = some []) :
    get_table_schema db = "" ∧
    assembled_prompt examples natural_query db =
      build_prompt ""
        (examples_text (get_relevant_examples natural_query examples 3))
        natural_query ∧
    (generate_sql sqlformat examples generate natural_query db = none ↔
      generate (assembled_prompt examples natural_query db) = none ∨
      generate (assembled_prompt examples natural_query db) = some "") := by
  have hs : get_table_schema db = "" := by
    rcases h with h | h <;> simp [get_table_schema, h]
  refine ⟨hs, by rw [assembled_prompt, hs], ?_⟩
  rcases hg : generate (assembled_prompt examples natural_query db) with _ | r
  · simp [generate_sql, hg]
  · by_cases hr : r = "" <;> simp [generate_sql, hg, hr]

/-- Witness for C10: with a dead database and a provider answering
`SELECT 1`, the schema text is empty and translation does not return
`none`. -/
theorem c10_schema_failure_witness :
    get_table_schema (fun _ => none) = "" ∧
    assembled_prompt [] "show all users" (fun _ => none) =
      build_prompt ""
        (examples_text (get_relevant_examples "show all users" [] 3))
        "show all users" ∧
    (generate_sql (fun s => s) [] (fun _ => some "SELECT 1") "show all users"
        (fun _ => none) = none ↔
      (fun _ : String => some "SELECT 1")
          (assembled_prompt [] "show all users" (fun _ => none)) = none ∨
      (fun _ : String => some "SELECT 1")
          (assembled_prompt [] "show all users" (fun _ => none)) = some "") :=
  c10_schema_failure (fun s => s) [] (fun _ => some "SELECT 1") "show all users"
    (fun _ => none) (Or.inl rfl)

/-- C6: a non-empty provider response is stripped, has its fenced-code
markers removed, and is normalized with the same `sqlformat` used for
stored examples; in particular a response of the shape
three-backticks-sql, body, three-backticks (backtick-free body) reduces to
the bare SQL between the markers before normalization. -/
theorem c6_generate_sql_postprocess (sqlformat : String → String)
    (examples : List QueryExample) (generate : String → Option String)
    (natural_query : String) (db : String → Option (List SchemaRow)) :
    (∀ r, generate (assembled_prompt examples natural_query db) = some r →
      r ≠ "" →
      generate_sql sqlformat examples generate natural_query db =
        some (sqlformat (postprocess r))) ∧
    (∀ body, (∀ c ∈ body.data, ¬ c = backtick) →
      postprocess ("```sql" ++ body ++ "```") = pyStrip body) := by
  refine ⟨fun r hr hne => ?_, fun body hb => postprocess_fenced body hb⟩
  simp [generate_sql, hr, hne]

/-- Witness for C6 at a concrete fenced response: the translation returns
the normalized post-processed SQL, and the fenced body is recovered
exactly. -/
theorem c6_generate_sql_postprocess_witness :
    generate_sql (fun s => s) [] (fun _ => some "```sql\nSELECT 1\n```")
        "show all users" (fun _ => none) =
      some ((fun s => s) (postprocess "```sql\nSELECT 1\n```")) ∧
    postprocess ("```sql" ++ "\nSELECT 1\n" ++ "```") = pyStrip "\nSELECT 1\n" :=
  ⟨(c6_generate_sql_postprocess (fun s => s) [] (fun _ => some "```sql\nSELECT 1\n```")
      "show all users" (fun _ => none)).1 "```sql\nSELECT 1\n```" rfl (by decide),
   (c6_generate_sql_postprocess (fun s => s) [] (fun _ => some "```sql\nSELECT 1\n```")
      "show all users" (fun _ => none)).2 "\nSELECT 1\n" (by decide)⟩

/-- C1 counterexample: a whitespace-only provider response is truthy in
Python, so it escapes the `if not response` test; the pipeline strips it to
the empty string and returns it normalized instead of returning `none`
(shown with the identity normalizer — the result is `some` for every
normalizer). -/
theorem c1_counterexample :
    generate_sql (fun s => s) [] (fun _ => some "   ") "show all users"
      (fun _ => none) = some "" := by decide

/-- C1 (amended): `translate` returns `none` exactly on provider failure or
an empty-string response; a whitespace-only response instead strips to the
empty string and is returned as the normalizer applied to `""`. -/
theorem c1_amended_translate_none (sqlformat : String → String)
    (examples : List QueryExample) (generate : String → Option String)
    (natural_query : String) (db : String → Option (List SchemaRow)) :
    (generate (assembled_prompt examples natural_query db) = none →
      generate_sql sqlformat examples generate natural_query db = none) ∧
    (generate (assembled_prompt examples natural_query db) = some "" →
      generate_sql sqlformat examples generate natural_query db = none) ∧
    (∀ w, generate (assembled_prompt examples natural_query db) = some w →
      w ≠ "" → (∀ c ∈ w.data, isSpace c) →
      generate_sql sqlformat examples generate natural_query db =
        some (sqlformat "")) := by
  refine ⟨fun h => ?_, fun h => ?_, fun w hw hne hsp => ?_⟩
  · simp [generate_sql, h]
  · simp [generate_sql, h]
  · have hstrip : pyStrip w = "" := pyStrip_eq_empty_iff.2 hsp
    have hpost : postprocess w = "" := by
      rw [postprocess, hstrip]
      decide
    simp [generate_sql, hw, hne, hpost]

/-- Witness for C1's amended clause: a single-space response yields
`some ""` under the identity normalizer. -/
theorem c1_amended_witness :
    generate_sql (fun s => s) [] (fun _ => some " ") "show all users"
      (fun _ => none) = some "" :=
  (c1_amended_translate_none (fun s => s) [] (fun _ => some " ") "show all users"
    (fun _ => none)).2.2 " " rfl (by decide) (by decide)

end QueryAssistant
